import Mathlib

/-!
Verification development for the health-chatbot structured-query layer of
the repository (files src/userdb.py, src/agents/userdb.py, src/new_agent.py,
src/agents/new_agent_trial.py).

The Python code builds parameterized SQLite statements from declarative
query/mutation descriptors.  We embed it shallowly:

- SQL values are Val (NULL, INTEGER, TEXT); rows are association lists over
  column names, in schema order.
- The fixed schema created by _init_schema is transcribed as tableCols.
- _quote_ident, _ensure_allowed_table, _validate_columns and _build_where
  become pure functions returning Except Err.
- The SQLite engine fragment the code relies on (WHERE evaluation,
  LIMIT/OFFSET, COUNT, LIKE, NOT NULL constraints, AUTOINCREMENT row ids,
  and the double-quoted-identifier fallback whereby an unknown quoted name
  is read as a string literal) is modelled by evalClause / table execution.
- time.time() is passed in explicitly as a parameter named now; a single
  tool call reads the clock at most a few times within the same second, so
  one parameter stands for all reads within a call.
- src/userdb.py runs _purge_expired at the top of every tool call
  (_touch_purge); src/agents/userdb.py runs it only at startup.  The pure
  operations below model the operation bodies shared by both files, and the
  tool_ prefixed wrappers add the per-call purge of src/userdb.py.
-/

namespace HealthDB

/-- A SQLite storage value: the code stores Python ints and strs and reads
rows back as dicts; NULL stands for absent optional fields. -/
inductive Val where
  | null : Val
  | int (i : Int) : Val
  | text (s : String) : Val
deriving DecidableEq, Repr

/-- A row as returned by dict(sqlite3.Row): column name / value pairs in
schema order. -/
abbrev Row := List (String × Val)

/-- One column of a table schema: its name and whether it is NOT NULL. -/
structure ColInfo where
  name : String
  notnull : Bool
deriving DecidableEq, Repr

/-- Errors raised by the Python layer.  The code raises ValueError for all
validation failures; the constructors follow the distinct raise sites so
the spec's taxonomy (SchemaError, ValidationError, PolicyError) can be read
off.  engine covers errors the sqlite3 driver itself raises while a
statement runs. -/
inductive Err where
  | unknownTable (t : String)
  | invalidIdent (s : String)
  | invalidColumns (t : String) (bad : List String)
  | unsupportedOp (op : String)
  | emptyValues
  | policyNoWhere (op : String)
  | engine (msg : String)
deriving DecidableEq, Repr

/-- ALLOWED_TABLES from src/userdb.py. -/
def ALLOWED_TABLES : List String := ["medical_history", "medication", "food_24h"]

/-- Columns of medical_history as created by _init_schema. -/
def medicalHistoryCols : List ColInfo :=
  [⟨"id", false⟩, ⟨"condition", true⟩, ⟨"diagnosis_date", false⟩,
   ⟨"severity", false⟩, ⟨"status", false⟩, ⟨"created_at", true⟩,
   ⟨"updated_at", true⟩]

/-- Columns of medication as created by _init_schema. -/
def medicationCols : List ColInfo :=
  [⟨"id", false⟩, ⟨"name", true⟩, ⟨"dosage", false⟩, ⟨"time_taken", false⟩,
   ⟨"condition_id", false⟩, ⟨"status", false⟩, ⟨"created_at", true⟩,
   ⟨"updated_at", true⟩]

/-- Columns of food_24h as created by _init_schema. -/
def food24hCols : List ColInfo :=
  [⟨"id", false⟩, ⟨"name", true⟩, ⟨"notes", false⟩, ⟨"taken_at", true⟩,
   ⟨"created_at", true⟩]

/-- The schema of an allowed table; the empty list for anything else
(_get_columns never runs on a blocked table). -/
def tableCols (t : String) : List ColInfo :=
  if t = "medical_history" then medicalHistoryCols
  else if t = "medication" then medicationCols
  else if t = "food_24h" then food24hCols
  else []

/-- _get_columns: the column-name list PRAGMA table_info reports. -/
def getColumns (t : String) : List String := (tableCols t).map (·.name)

/-- Python str.isalnum restricted to the ASCII identifiers this repository
uses (every identifier the code or spec mentions is ASCII). -/
def pyAlnumChar (c : Char) : Bool := c.isAlphanum

/-- _quote_ident: accept the identifier iff, after removing underscores, it
is a non-empty all-alphanumeric string (Python ident.replace + isalnum),
and return it wrapped in double quotes. -/
def quoteIdent (s : String) : Except Err String :=
  let stripped := s.data.filter (fun c => c ≠ '_')
  if !stripped.isEmpty && stripped.all pyAlnumChar then
    Except.ok ("\"" ++ s ++ "\"")
  else
    Except.error (Err.invalidIdent s)

/-- _ensure_allowed_table. -/
def ensureAllowedTable (t : String) : Except Err Unit :=
  if t ∈ ALLOWED_TABLES then Except.ok () else Except.error (Err.unknownTable t)

/-- _validate_columns: collect, in order, the supplied names absent from the
table's real schema and fail listing them. -/
def validateColumns (t : String) (cols : List String) : Except Err Unit :=
  let allowed := getColumns t
  let bad := cols.filter (fun c => !(allowed.contains c))
  if bad.isEmpty then Except.ok () else Except.error (Err.invalidColumns t bad)

/-- The value attached to one where-key: a bare literal (equality), a
structured pair with op and a scalar value, or a structured pair whose
value is a sequence (the shape IN expects). -/
inductive WhereVal where
  | lit (v : Val)
  | opVal (op : String) (v : Val)
  | opList (op : String) (vs : List Val)
deriving DecidableEq, Repr

/-- A where mapping: Python dicts iterate in insertion order, so a list of
pairs. -/
abbrev WhereMap := List (String × WhereVal)

/-- One compiled conjunct of a WHERE clause, with its bound parameters
inline: the literal 1=0, a comparison against one parameter, or an IN list. -/
inductive Clause where
  | alwaysFalse
  | cmp (col : String) (op : String) (v : Val)
  | inList (col : String) (vs : List Val)
deriving DecidableEq, Repr

/-- The operator whitelist of _build_where. -/
def supportedOps : List String := ["=", "!=", ">", ">=", "<", "<=", "LIKE", "IN"]

/-- str(op).strip().upper() as applied by _build_where: drop surrounding
whitespace, then uppercase each character. -/
def normOp (s : String) : String :=
  String.mk
    ((((s.data.dropWhile Char.isWhitespace).reverse.dropWhile
        Char.isWhitespace).reverse).map Char.toUpper)

/-- Compile one where entry, mirroring the loop body of _build_where.
A structured scalar under IN iterates Python-style (a str iterates its
characters; anything else raises TypeError); a sequence under a non-IN
operator would be rejected by the sqlite3 driver when the statement is
bound, modelled as the corresponding engine error. -/
def buildWhereOne (col : String) (wv : WhereVal) : Except Err Clause := do
  let _ ← quoteIdent col
  match wv with
  | WhereVal.lit v => Except.ok (Clause.cmp col "=" v)
  | WhereVal.opVal op v =>
      let opN := normOp op
      if !(supportedOps.contains opN) then
        Except.error (Err.unsupportedOp opN)
      else if opN = "IN" then
        match v with
        | Val.text s =>
            if s.data.isEmpty then Except.ok Clause.alwaysFalse
            else Except.ok (Clause.inList col (s.data.map (fun c => Val.text (String.singleton c))))
        | _ => Except.error (Err.engine "value is not iterable")
      else
        Except.ok (Clause.cmp col opN v)
  | WhereVal.opList op vs =>
      let opN := normOp op
      if !(supportedOps.contains opN) then
        Except.error (Err.unsupportedOp opN)
      else if opN = "IN" then
        if vs.isEmpty then Except.ok Clause.alwaysFalse
        else Except.ok (Clause.inList col vs)
      else
        Except.error (Err.engine "cannot bind a sequence value")

/-- _build_where: a falsy mapping (absent or empty) compiles to no WHERE
clause at all (the empty conjunct list); otherwise each entry compiles in
order and the conjuncts are joined with AND. -/
def buildWhere (w : Option WhereMap) : Except Err (List Clause) :=
  match w with
  | none => Except.ok []
  | some m =>
      if m.isEmpty then Except.ok []
      else m.mapM (fun p => buildWhereOne p.1 p.2)

/-- Reading a double-quoted name during statement execution: a real column
of the row resolves to its value; otherwise SQLite falls back to treating
the double-quoted token as a string literal. -/
def lookupVal (row : Row) (col : String) : Val :=
  match row.lookup col with
  | some v => v
  | none => Val.text col

/-- SQLite comparison across storage classes: NULL compares to nothing
(three-valued logic collapses to false in a WHERE), INTEGER sorts below
TEXT, and same-class values compare natively. -/
def compareVals (a b : Val) : Option Ordering :=
  match a, b with
  | Val.null, _ => none
  | _, Val.null => none
  | Val.int i, Val.int j => some (compare i j)
  | Val.text s, Val.text t => some (compare s t)
  | Val.int _, Val.text _ => some Ordering.lt
  | Val.text _, Val.int _ => some Ordering.gt

/-- SQLite LIKE matching on character lists: percent matches any run,
underscore any one character, letters match ASCII case-insensitively.
Written with an explicit fuel argument to keep the recursion structural;
every recursive call shrinks pattern-length plus string-length, so the fuel
supplied by likeMatch below never runs out. -/
def likeMatchAux : Nat → List Char → List Char → Bool
  | _ + 1, [], [] => true
  | _ + 1, [], _ :: _ => false
  | fuel + 1, '%' :: ps, s =>
      likeMatchAux fuel ps s ||
        (match s with
         | [] => false
         | _ :: s2 => likeMatchAux fuel ('%' :: ps) s2)
  | fuel + 1, '_' :: ps, s =>
      (match s with
       | [] => false
       | _ :: s2 => likeMatchAux fuel ps s2)
  | fuel + 1, p :: ps, s =>
      (match s with
       | [] => false
       | c :: s2 => p.toLower = c.toLower && likeMatchAux fuel ps s2)
  | 0, _, _ => false

/-- LIKE matching, with enough fuel for the whole input. -/
def likeMatch (p s : List Char) : Bool :=
  likeMatchAux (p.length + s.length + 1) p s

/-- LIKE coerces its non-NULL operands to TEXT. -/
def valToLikeText : Val → Option String
  | Val.null => none
  | Val.int i => some (toString i)
  | Val.text s => some s

/-- Evaluate one comparison operator, SQLite-style: any NULL operand makes
the condition fail. -/
def evalCmp (op : String) (lhs rhs : Val) : Bool :=
  if op = "LIKE" then
    match valToLikeText lhs, valToLikeText rhs with
    | some s, some p => likeMatch p.data s.data
    | _, _ => false
  else
    match compareVals lhs rhs with
    | none => false
    | some o =>
        if op = "=" then o = Ordering.eq
        else if op = "!=" then o ≠ Ordering.eq
        else if op = ">" then o = Ordering.gt
        else if op = ">=" then o ≠ Ordering.lt
        else if op = "<" then o = Ordering.lt
        else if op = "<=" then o ≠ Ordering.gt
        else false

/-- Evaluate one compiled conjunct on a row. -/
def evalClause (row : Row) : Clause → Bool
  | Clause.alwaysFalse => false
  | Clause.cmp col op v => evalCmp op (lookupVal row col) v
  | Clause.inList col vs =>
      match lookupVal row col with
      | Val.null => false
      | l => vs.any (fun v => compareVals l v = some Ordering.eq)

/-- A row satisfies a compiled WHERE clause iff it satisfies every
conjunct. -/
def rowMatches (cs : List Clause) (row : Row) : Bool := cs.all (evalClause row)

/-- The database state: the three tables created by _init_schema plus each
table's AUTOINCREMENT counter (the next rowid to assign). -/
structure DB where
  medical_history : List Row
  medication : List Row
  food_24h : List Row
  seqMedicalHistory : Int
  seqMedication : Int
  seqFood24h : Int
deriving DecidableEq, Repr

/-- Read a table's rows by name. -/
def DB.getTable (db : DB) (t : String) : List Row :=
  if t = "medical_history" then db.medical_history
  else if t = "medication" then db.medication
  else if t = "food_24h" then db.food_24h
  else []

/-- Replace a table's rows by name. -/
def DB.setTable (db : DB) (t : String) (rows : List Row) : DB :=
  if t = "medical_history" then { db with medical_history := rows }
  else if t = "medication" then { db with medication := rows }
  else if t = "food_24h" then { db with food_24h := rows }
  else db

/-- Read a table's AUTOINCREMENT counter. -/
def DB.getSeq (db : DB) (t : String) : Int :=
  if t = "medical_history" then db.seqMedicalHistory
  else if t = "medication" then db.seqMedication
  else if t = "food_24h" then db.seqFood24h
  else 0

/-- Set a table's AUTOINCREMENT counter. -/
def DB.setSeq (db : DB) (t : String) (n : Int) : DB :=
  if t = "medical_history" then { db with seqMedicalHistory := n }
  else if t = "medication" then { db with seqMedication := n }
  else if t = "food_24h" then { db with seqFood24h := n }
  else db

/-- The retention condition of the first DELETE of _purge_expired: status
LIKE recovered-percent AND updated_at at most now minus fourteen days. -/
def purgeMedicalHistoryClauses (now : Int) : List Clause :=
  [Clause.cmp "status" "LIKE" (Val.text "recovered%"),
   Clause.cmp "updated_at" "<=" (Val.int (now - 14 * 24 * 3600))]

/-- The retention condition of the second DELETE of _purge_expired:
taken_at strictly below now minus one day. -/
def purgeFoodClauses (now : Int) : List Clause :=
  [Clause.cmp "taken_at" "<" (Val.int (now - 24 * 3600))]

/-- _purge_expired: delete recovered medical_history rows stale for
fourteen days and food_24h rows older than a day; no other table is
touched. -/
def purgeExpired (now : Int) (db : DB) : DB :=
  { db with
    medical_history :=
      db.medical_history.filter (fun r => !(rowMatches (purgeMedicalHistoryClauses now) r)),
    food_24h :=
      db.food_24h.filter (fun r => !(rowMatches (purgeFoodClauses now) r)) }

/-- Result shape of table_query. -/
structure SelectResult where
  rows : List Row
  rowCount : Int
  nextOffset : Option Int
deriving DecidableEq, Repr

/-- Result shape of table_insert / table_update / table_delete. -/
structure MutateResult where
  rowCount : Int
  lastRowId : Option Int
deriving DecidableEq, Repr

/-- ORDER BY comparison of two storage values: NULLs sort first, INTEGER
before TEXT, same-class values natively. -/
def orderCompareVals (a b : Val) : Ordering :=
  match a, b with
  | Val.null, Val.null => Ordering.eq
  | Val.null, _ => Ordering.lt
  | _, Val.null => Ordering.gt
  | Val.int i, Val.int j => compare i j
  | Val.text s, Val.text t => compare s t
  | Val.int _, Val.text _ => Ordering.lt
  | Val.text _, Val.int _ => Ordering.gt

/-- Lexicographic ORDER BY comparison over a list of (already validated)
column names. -/
def rowOrder (cols : List String) (r1 r2 : Row) : Ordering :=
  match cols with
  | [] => Ordering.eq
  | c :: rest =>
      match orderCompareVals (lookupVal r1 c) (lookupVal r2 c) with
      | Ordering.eq => rowOrder rest r1 r2
      | o => o

/-- Insert into a sorted list, keeping earlier elements first on ties. -/
def insertSorted (le : Row → Row → Bool) (r : Row) : List Row → List Row
  | [] => [r]
  | x :: xs => if le x r then x :: insertSorted le r xs else r :: x :: xs

/-- Stable sort of the result rows for ORDER BY. -/
def sortRows (cols : List String) (rows : List Row) : List Row :=
  rows.foldl (fun acc r => insertSorted (fun a b => rowOrder cols a b ≠ Ordering.gt) r acc) []

/-- LIMIT/OFFSET semantics of SQLite: a negative OFFSET skips nothing and a
negative LIMIT means no upper bound. -/
def applyLimitOffset (lim off : Int) (rows : List Row) : List Row :=
  let dropped := if off ≤ 0 then rows else rows.drop off.toNat
  if lim < 0 then dropped else dropped.take lim.toNat

/-- SELECT column projection: with an explicit column list the returned
dicts hold exactly those columns, in the requested order. -/
def projectRow (cols : Option (List String)) (r : Row) : Row :=
  match cols with
  | none => r
  | some cs => cs.map (fun c => (c, lookupVal r c))

/-- Both table_query variants treat a caller-sent empty list or mapping the
same as an absent argument (an empty Python container is falsy under the
if-guards, and src/agents/userdb.py additionally rewrites them to None). -/
def noneIfEmptyList (l : Option (List String)) : Option (List String) :=
  match l with
  | some [] => none
  | x => x

/-- The conditional validation an operation applies to an optional column
list: absent means no check. -/
def validateOptCols (t : String) (c : Option (List String)) : Except Err Unit :=
  match c with
  | some cs => validateColumns t cs
  | none => Except.ok ()

/-- table_query (shared body of src/userdb.py and src/agents/userdb.py,
without the per-call purge of the former): validate the table, the column
list and the order_by list, compile the WHERE clause, run the SELECT with
LIMIT/OFFSET, then a COUNT with the same predicate, and derive nextOffset. -/
def table_query (db : DB) (table : String) (columns : Option (List String))
    (whereArg : Option WhereMap) (orderBy : Option (List String))
    (lim off : Int) : Except Err SelectResult := do
  let _ ← ensureAllowedTable table
  let columns := noneIfEmptyList columns
  let orderBy := noneIfEmptyList orderBy
  let _ ← validateOptCols table columns
  let _ ← validateOptCols table orderBy
  let cs ← buildWhere whereArg
  let matched := (db.getTable table).filter (rowMatches cs)
  let ordered := match orderBy with
                 | some ob => sortRows ob matched
                 | none => matched
  let page := (applyLimitOffset lim off ordered).map (projectRow columns)
  let total : Int := matched.length
  let nextOff : Option Int := if off + lim < total then some (off + lim) else none
  Except.ok { rows := page, rowCount := total, nextOffset := nextOff }

/-- Auto-timestamp injection of table_insert: created_at and updated_at are
set to now when the table has them and the caller omitted them (dict
insertion appends the new keys after the caller's). -/
def injectTimestamps (now : Int) (table : String) (values : List (String × Val)) :
    List (String × Val) :=
  let colsAvailable := getColumns table
  let v1 := if colsAvailable.contains "created_at" && (values.lookup "created_at").isNone
            then values ++ [("created_at", Val.int now)] else values
  if colsAvailable.contains "updated_at" && (v1.lookup "updated_at").isNone
  then v1 ++ [("updated_at", Val.int now)] else v1

/-- The id a row carries, as an integer when it is one. -/
def rowId (r : Row) : Option Int :=
  match r.lookup "id" with
  | some (Val.int i) => some i
  | _ => none

/-- NOT NULL enforcement the sqlite engine applies when a statement runs: a
NOT NULL column other than the auto-assigned id must carry a non-NULL
value. -/
def rowSatisfiesNotNull (table : String) (r : Row) : Bool :=
  (tableCols table).all (fun c =>
    if c.notnull && c.name ≠ "id" then
      match r.lookup c.name with
      | some v => v ≠ Val.null
      | none => false
    else true)

/-- Build the stored row of an INSERT: every schema column, the assigned id
first, caller values where given, NULL elsewhere. -/
def buildInsertRow (table : String) (id : Int) (vals : List (String × Val)) : Row :=
  (tableCols table).map (fun c =>
    if c.name = "id" then (c.name, Val.int id)
    else (c.name, (vals.lookup c.name).getD Val.null))

/-- table_insert (shared body): allow-list the table, reject empty values,
inject timestamps, validate every column name, then run the INSERT: the
engine assigns the next AUTOINCREMENT id (or takes a caller-sent integer
id, enforcing uniqueness), checks NOT NULL, and reports rowcount 1 together
with the inserted rowid. -/
def table_insert (now : Int) (db : DB) (table : String)
    (values : List (String × Val)) : Except Err (DB × MutateResult) := do
  let _ ← ensureAllowedTable table
  if values.isEmpty then Except.error Err.emptyValues else
  let vals := injectTimestamps now table values
  let _ ← validateColumns table (vals.map (·.1))
  let rows := db.getTable table
  let seq := db.getSeq table
  let idSpec : Except Err (Int × Int) :=
    match vals.lookup "id" with
    | some (Val.int v) =>
        if rows.any (fun r => rowId r = some v) then
          Except.error (Err.engine "UNIQUE constraint failed")
        else Except.ok (v, max seq (v + 1))
    | some Val.null => Except.ok (seq, seq + 1)
    | some (Val.text _) => Except.error (Err.engine "datatype mismatch")
    | none => Except.ok (seq, seq + 1)
  let (newId, newSeq) ← idSpec
  let newRow := buildInsertRow table newId vals
  if !(rowSatisfiesNotNull table newRow) then
    Except.error (Err.engine "NOT NULL constraint failed")
  else
    let db2 := (db.setTable table (rows ++ [newRow])).setSeq table newSeq
    Except.ok (db2, { rowCount := 1, lastRowId := some newId })

/-- Apply an UPDATE's SET list to one row. -/
def applyVals (vals : List (String × Val)) (r : Row) : Row :=
  vals.foldl (fun row kv => row.map (fun cv => if cv.1 = kv.1 then (cv.1, kv.2) else cv)) r

/-- The setdefault step of table_update: updated_at is set to now when the
table has that column and the caller did not supply it (appended after the
caller's keys, as dict setdefault does). -/
def updateVals (now : Int) (table : String) (values : List (String × Val)) :
    List (String × Val) :=
  if (getColumns table).contains "updated_at" && (values.lookup "updated_at").isNone
  then values ++ [("updated_at", Val.int now)] else values

/-- table_update (shared body): allow-list the table, reject empty values,
setdefault updated_at to now when the table has that column, validate every
column name, compile the WHERE clause, refuse an empty one, then run the
UPDATE: every matching row gets the SET list applied (the engine enforces
NOT NULL on each row the statement modifies), and rowcount is the number of
matching rows. -/
def table_update (now : Int) (db : DB) (table : String)
    (values : List (String × Val)) (whereArg : Option WhereMap) :
    Except Err (DB × MutateResult) := do
  let _ ← ensureAllowedTable table
  if values.isEmpty then Except.error Err.emptyValues else
  let vals := updateVals now table values
  let _ ← validateColumns table (vals.map (·.1))
  let cs ← buildWhere whereArg
  if cs.isEmpty then Except.error (Err.policyNoWhere "update") else
  let rows := db.getTable table
  if rows.any (fun r => rowMatches cs r && !(rowSatisfiesNotNull table (applyVals vals r))) then
    Except.error (Err.engine "NOT NULL constraint failed")
  else
    let updated := rows.map (fun r => if rowMatches cs r then applyVals vals r else r)
    let count : Int := (rows.filter (rowMatches cs)).length
    Except.ok (db.setTable table updated, { rowCount := count, lastRowId := none })

/-- table_delete (shared body): allow-list the table, compile the WHERE
clause, refuse an empty one, then delete the matching rows, reporting how
many went. -/
def table_delete (db : DB) (table : String) (whereArg : Option WhereMap) :
    Except Err (DB × MutateResult) := do
  let _ ← ensureAllowedTable table
  let cs ← buildWhere whereArg
  if cs.isEmpty then Except.error (Err.policyNoWhere "delete") else
  let rows := db.getTable table
  let remaining := rows.filter (fun r => !(rowMatches cs r))
  let count : Int := rows.length - remaining.length
  Except.ok (db.setTable table remaining, { rowCount := count, lastRowId := none })

/-- The table_query tool of src/userdb.py: _touch_purge runs first (even
before the allow-list check), then the query body runs against the purged
state.  The pair returns the post-call database alongside the call's
outcome. -/
def tool_table_query (now : Int) (db : DB) (table : String)
    (columns : Option (List String)) (whereArg : Option WhereMap)
    (orderBy : Option (List String)) (lim off : Int) :
    DB × Except Err SelectResult :=
  let db2 := purgeExpired now db
  (db2, table_query db2 table columns whereArg orderBy lim off)

/-- The table_insert tool of src/userdb.py: purge first, then insert; on a
validation failure the purge has already committed. -/
def tool_table_insert (now : Int) (db : DB) (table : String)
    (values : List (String × Val)) : DB × Except Err MutateResult :=
  let db2 := purgeExpired now db
  match table_insert now db2 table values with
  | Except.ok (db3, r) => (db3, Except.ok r)
  | Except.error e => (db2, Except.error e)

/-- The table_update tool of src/userdb.py: purge first, then update. -/
def tool_table_update (now : Int) (db : DB) (table : String)
    (values : List (String × Val)) (whereArg : Option WhereMap) :
    DB × Except Err MutateResult :=
  let db2 := purgeExpired now db
  match table_update now db2 table values whereArg with
  | Except.ok (db3, r) => (db3, Except.ok r)
  | Except.error e => (db2, Except.error e)

/-- The table_delete tool of src/userdb.py: purge first, then delete. -/
def tool_table_delete (now : Int) (db : DB) (table : String)
    (whereArg : Option WhereMap) : DB × Except Err MutateResult :=
  let db2 := purgeExpired now db
  match table_delete db2 table whereArg with
  | Except.ok (db3, r) => (db3, Except.ok r)
  | Except.error e => (db2, Except.error e)

/-- A caller-sent value for the columns or order_by field: the LLM may send
one bare string where a list is expected. -/
inductive ColSpec where
  | one (s : String)
  | many (l : List String)
deriving DecidableEq, Repr

/-- The where field of a caller payload: missing key, an explicit JSON
null, or a mapping. -/
inductive WhereField where
  | absent
  | isNull
  | map (m : WhereMap)
deriving DecidableEq, Repr

/-- A loosely-typed table_query argument dict as the normalizers receive
it. -/
structure QArgs where
  table : Option String
  columns : Option ColSpec
  order_by : Option ColSpec
  whereField : WhereField
  limit : Option Int
  offset : Option Int
deriving DecidableEq, Repr

/-- A payload handed to _normalize_query_args: either the argument dict
itself, or the dict nested one level under an arguments key (some runners
wrap it). -/
inductive Payload where
  | plain (a : QArgs)
  | wrapped (a : QArgs)
deriving DecidableEq, Repr

/-- The unwrap step of _normalize_query_args: a dict with a table key is
used directly; otherwise the value under arguments (when present) is. -/
def unwrapPayload : Payload → QArgs
  | Payload.plain a => a
  | Payload.wrapped a => a

/-- The canonical descriptor after normalization: lists for columns and
order_by, and an always-present where mapping. -/
structure NormArgs where
  table : Option String
  columns : Option (List String)
  order_by : Option (List String)
  whereMap : WhereMap
  limit : Option Int
  offset : Option Int
deriving DecidableEq, Repr

/-- Coerce a bare string to a one-element list (canonical list shape). -/
def coerceColSpec : Option ColSpec → Option (List String)
  | some (ColSpec.one s) => some [s]
  | some (ColSpec.many l) => some l
  | none => none

/-- _normalize_query_args of src/new_agent.py: unwrap, coerce singleton
strings to lists, replace a missing or null where with the empty mapping,
then inject per-table defaults only where the caller left gaps.  For
food_24h, medication and medical_history alike, an absent predicate becomes
taken_at at least now minus 86400 seconds (for the latter two tables,
taken_at is not a column of the table). -/
def normalize_query_args_NA (now : Int) (p : Payload) : NormArgs :=
  let a := unwrapPayload p
  let ob := coerceColSpec a.order_by
  let cols := coerceColSpec a.columns
  let w : WhereMap := match a.whereField with
                      | WhereField.map m => m
                      | _ => []
  let lastDay : WhereMap := [("taken_at", WhereVal.opVal ">=" (Val.int (now - 24 * 3600)))]
  match a.table with
  | some "food_24h" =>
      { table := a.table, columns := cols,
        order_by := some (ob.getD ["taken_at"]),
        whereMap := if w.isEmpty then lastDay else w,
        limit := some (a.limit.getD 50), offset := a.offset }
  | some "medication" =>
      { table := a.table, columns := cols,
        order_by := some (ob.getD ["updated_at"]),
        whereMap := if w.isEmpty then lastDay else w,
        limit := some (a.limit.getD 50), offset := a.offset }
  | some "medical_history" =>
      { table := a.table, columns := cols,
        order_by := some (ob.getD ["updated_at"]),
        whereMap := if w.isEmpty then lastDay else w,
        limit := some (a.limit.getD 50), offset := a.offset }
  | _ =>
      { table := a.table, columns := cols, order_by := ob,
        whereMap := w, limit := a.limit, offset := a.offset }

/-- _normalize_query_args of src/agents/new_agent_trial.py: identical to
the src/new_agent.py variant except that for medication and medical_history
an absent predicate becomes the trivially-true bound created_at strictly
below now. -/
def normalize_query_args_trial (now : Int) (p : Payload) : NormArgs :=
  let a := unwrapPayload p
  let ob := coerceColSpec a.order_by
  let cols := coerceColSpec a.columns
  let w : WhereMap := match a.whereField with
                      | WhereField.map m => m
                      | _ => []
  let lastDay : WhereMap := [("taken_at", WhereVal.opVal ">=" (Val.int (now - 24 * 3600)))]
  let beforeNow : WhereMap := [("created_at", WhereVal.opVal "<" (Val.int now))]
  match a.table with
  | some "food_24h" =>
      { table := a.table, columns := cols,
        order_by := some (ob.getD ["taken_at"]),
        whereMap := if w.isEmpty then lastDay else w,
        limit := some (a.limit.getD 50), offset := a.offset }
  | some "medication" =>
      { table := a.table, columns := cols,
        order_by := some (ob.getD ["updated_at"]),
        whereMap := if w.isEmpty then beforeNow else w,
        limit := some (a.limit.getD 50), offset := a.offset }
  | some "medical_history" =>
      { table := a.table, columns := cols,
        order_by := some (ob.getD ["updated_at"]),
        whereMap := if w.isEmpty then beforeNow else w,
        limit := some (a.limit.getD 50), offset := a.offset }
  | _ =>
      { table := a.table, columns := cols, order_by := ob,
        whereMap := w, limit := a.limit, offset := a.offset }

/-! Concrete fixtures used by the theorems below. -/

/-- An empty store right after _init_schema. -/
def db0 : DB :=
  { medical_history := [], medication := [], food_24h := [],
    seqMedicalHistory := 1, seqMedication := 1, seqFood24h := 1 }

/-- A concrete medication row. -/
def mrow (i : Int) : Row :=
  [("id", Val.int i), ("name", Val.text "doxycycline"), ("dosage", Val.null),
   ("time_taken", Val.null), ("condition_id", Val.null), ("status", Val.null),
   ("created_at", Val.int 100), ("updated_at", Val.int 100)]

/-- A concrete food_24h row consumed at time ta. -/
def frow (i ta : Int) : Row :=
  [("id", Val.int i), ("name", Val.text "apple"), ("notes", Val.null),
   ("taken_at", Val.int ta), ("created_at", Val.int ta)]

/-- A store holding one medication row and one food row eaten at time 0,
which is purge-eligible whenever now is past one day. -/
def db1 : DB :=
  { medical_history := [], medication := [mrow 1], food_24h := [frow 1 0],
    seqMedicalHistory := 1, seqMedication := 2, seqFood24h := 2 }

/-- A store holding one hundred and twenty fresh food rows, for the
pagination scenario. -/
def db120 : DB :=
  { medical_history := [], medication := [],
    food_24h := (List.range 120).map (fun i => frow (i + 1) 50),
    seqMedicalHistory := 1, seqMedication := 1, seqFood24h := 121 }

/-- The state table_insert leaves behind on success: the built row appended
to the table and the AUTOINCREMENT counter advanced (named here so the
round-trip theorem can state it). -/
def insResultDB (now : Int) (db : DB) (t : String) (v : List (String × Val)) : DB :=
  (db.setTable t
      (db.getTable t ++ [buildInsertRow t (db.getSeq t) (injectTimestamps now t v)])).setSeq
    t (db.getSeq t + 1)

/-- A medication query payload in which the caller supplied no predicate,
no ordering and no limit. -/
def medPayload : Payload :=
  Payload.plain
    { table := some "medication", columns := none, order_by := none,
      whereField := WhereField.absent, limit := none, offset := none }

/-- A medication query payload in which the caller did supply a predicate. -/
def medPayloadWithWhere : Payload :=
  Payload.plain
    { table := some "medication", columns := none, order_by := none,
      whereField := WhereField.map [("name", WhereVal.lit (Val.text "aspirin"))],
      limit := none, offset := none }

/-! Helper lemmas. -/

/-- Column validation passes when every supplied name is a schema column. -/
lemma validateColumns_ok (t : String) (ks : List String)
    (h : ∀ k ∈ ks, (getColumns t).contains k) :
    validateColumns t ks = Except.ok () := by
  unfold validateColumns
  simp only [List.isEmpty_eq_true, List.filter_eq_nil_iff]
  rw [if_pos]
  intro a ha
  simpa using h a ha

/-- Closed form of a successful table_query. -/
lemma table_query_spec (db : DB) (t : String) (c : Option (List String))
    (w : Option WhereMap) (ob : Option (List String)) (lim off : Int)
    (cs : List Clause)
    (ht : ensureAllowedTable t = Except.ok ())
    (hc : validateOptCols t (noneIfEmptyList c) = Except.ok ())
    (hob : validateOptCols t (noneIfEmptyList ob) = Except.ok ())
    (hw : buildWhere w = Except.ok cs) :
    table_query db t c w ob lim off =
      Except.ok
        { rows := (applyLimitOffset lim off
            (match noneIfEmptyList ob with
             | some obc => sortRows obc ((db.getTable t).filter (rowMatches cs))
             | none => (db.getTable t).filter (rowMatches cs))).map
              (projectRow (noneIfEmptyList c)),
          rowCount := ((db.getTable t).filter (rowMatches cs)).length,
          nextOffset :=
            if off + lim < (((db.getTable t).filter (rowMatches cs)).length : Int)
            then some (off + lim) else none } := by
  simp only [table_query, ht, hc, hob, hw, bind, Except.bind]

/-- A successful mapM sends every input to a successful output. -/
lemma mem_of_mapM_ok {α β : Type} (f : α → Except Err β) :
    ∀ {l : List α} {ys : List β}, l.mapM f = Except.ok ys →
      ∀ x ∈ l, ∃ y ∈ ys, f x = Except.ok y := by
  intro l
  induction l with
  | nil => intro ys _ x hx; cases hx
  | cons a l ih =>
      intro ys hmap x hx
      rw [List.mapM_cons] at hmap
      cases hfa : f a with
      | error e => rw [hfa] at hmap; simp [bind, Except.bind] at hmap
      | ok b =>
          rw [hfa] at hmap
          cases hrest : l.mapM f with
          | error e =>
              rw [hrest] at hmap; simp [bind, Except.bind] at hmap
          | ok bs =>
              rw [hrest] at hmap
              simp only [bind, Except.bind, pure, Except.pure, Except.ok.injEq] at hmap
              subst hmap
              rcases List.mem_cons.mp hx with rfl | hx2
              · exact ⟨b, List.mem_cons_self b bs, hfa⟩
              · rcases ih hrest x hx2 with ⟨y, hy, hfy⟩
                exact ⟨y, List.mem_cons_of_mem b hy, hfy⟩

/-- A WHERE clause with an always-false conjunct matches no row. -/
lemma rowMatches_of_alwaysFalse {cs : List Clause} (h : Clause.alwaysFalse ∈ cs)
    (r : Row) : rowMatches cs r = false := by
  unfold rowMatches
  rw [List.all_eq_false]
  exact ⟨Clause.alwaysFalse, h, by simp [evalClause]⟩

/-- An IN predicate over the empty sequence compiles to the always-false
conjunct (given the column name passes identifier validation). -/
lemma buildWhereOne_in_empty (col : String) (op : String) (q : String)
    (hq : quoteIdent col = Except.ok q) (hop : normOp op = "IN") :
    buildWhereOne col (WhereVal.opList op []) = Except.ok Clause.alwaysFalse := by
  simp [buildWhereOne, hq, hop, bind, Except.bind, supportedOps]

/-- If a mapping containing an IN-over-empty-sequence entry compiles, the
compiled clause list contains the always-false conjunct. -/
lemma alwaysFalse_mem_of_buildWhere {w : WhereMap} {cs : List Clause}
    (hw : buildWhere (some w) = Except.ok cs) {col op : String}
    (hmem : (col, WhereVal.opList op []) ∈ w) (hop : normOp op = "IN") :
    Clause.alwaysFalse ∈ cs := by
  have hne : ¬ w.isEmpty := by
    cases w with
    | nil => cases hmem
    | cons a l => simp [List.isEmpty]
  simp only [buildWhere] at hw
  rw [if_neg hne] at hw
  rcases mem_of_mapM_ok (fun p => buildWhereOne p.1 p.2) hw
      (col, WhereVal.opList op []) hmem with ⟨y, hy, hfy⟩
  cases hq : quoteIdent col with
  | error e => simp [buildWhereOne, hq, bind, Except.bind] at hfy
  | ok q =>
      rw [buildWhereOne_in_empty col op q hq hop] at hfy
      cases hfy
      exact hy

/-- Writing a table's rows back unchanged is the identity. -/
lemma setTable_getTable (db : DB) (t : String) :
    db.setTable t (db.getTable t) = db := by
  unfold DB.setTable DB.getTable
  by_cases h1 : t = "medical_history" <;> by_cases h2 : t = "medication" <;>
    by_cases h3 : t = "food_24h" <;> simp [h1, h2, h3]

/-- Column validation fails listing exactly the out-of-schema names, in
order, when there is at least one. -/
lemma validateColumns_err (t : String) (ks : List String)
    (h : ks.filter (fun c => !((getColumns t).contains c)) ≠ []) :
    validateColumns t ks =
      Except.error (Err.invalidColumns t (ks.filter (fun c => !((getColumns t).contains c)))) := by
  unfold validateColumns
  rw [if_neg]
  simpa using h

/-! ### C9 -/

/-- C9: the Retention Sweeper never deletes a medication row: _purge_expired
leaves the medication table (and its id counter) exactly as it was, and its
deletions are confined to medical_history and food_24h, whose row lists only
ever shrink to a sublist of what they were. -/
theorem C9_purge_never_touches_medication (now : Int) (db : DB) :
    (purgeExpired now db).medication = db.medication
    ∧ (purgeExpired now db).seqMedication = db.seqMedication
    ∧ List.Sublist (purgeExpired now db).medical_history db.medical_history
    ∧ List.Sublist (purgeExpired now db).food_24h db.food_24h := by
  refine ⟨rfl, rfl, ?_, ?_⟩ <;> exact List.filter_sublist _

/-! ### C2 -/

/-- C2 counterexample: in src/userdb.py the per-call purge runs before the
allow-list check, so a query against a blocked table, while failing with the
unknown-table SchemaError, still deletes expired rows: storage is accessed. -/
theorem C2_counterexample :
    (tool_table_query 2000000 db1 "users" none none none 100 0).2
        = Except.error (Err.unknownTable "users")
    ∧ (tool_table_query 2000000 db1 "users" none none none 100 0).1.food_24h = []
    ∧ db1.food_24h ≠ [] := by
  refine ⟨rfl, by decide, by decide⟩

/-- C2 amended: for a table outside the allow-list every operation fails
with the unknown-table SchemaError; the operation itself never reads or
writes a row (its outcome is a fixed error independent of the database
state, and the shared operation bodies — the src/agents/userdb.py variant —
leave the state untouched); in the src/userdb.py tool variants the only
state change is the retention purge that runs at the start of every tool
call. -/
theorem C2_blocked_table (t : String) (ht : t ∉ ALLOWED_TABLES)
    (now : Int) (db : DB) (c : Option (List String)) (w : Option WhereMap)
    (ob : Option (List String)) (lim off : Int) (v : List (String × Val)) :
    table_query db t c w ob lim off = Except.error (Err.unknownTable t)
    ∧ table_insert now db t v = Except.error (Err.unknownTable t)
    ∧ table_update now db t v w = Except.error (Err.unknownTable t)
    ∧ table_delete db t w = Except.error (Err.unknownTable t)
    ∧ tool_table_query now db t c w ob lim off
        = (purgeExpired now db, Except.error (Err.unknownTable t))
    ∧ tool_table_insert now db t v
        = (purgeExpired now db, Except.error (Err.unknownTable t))
    ∧ tool_table_update now db t v w
        = (purgeExpired now db, Except.error (Err.unknownTable t))
    ∧ tool_table_delete now db t w
        = (purgeExpired now db, Except.error (Err.unknownTable t)) := by
  have he : ensureAllowedTable t = Except.error (Err.unknownTable t) := by
    simp [ensureAllowedTable, ht]
  have hq : ∀ db2 : DB, table_query db2 t c w ob lim off
      = Except.error (Err.unknownTable t) := by
    intro db2; simp only [table_query, he, bind, Except.bind]
  have hi : ∀ db2 : DB, table_insert now db2 t v
      = Except.error (Err.unknownTable t) := by
    intro db2; simp only [table_insert, he, bind, Except.bind]
  have hu : ∀ db2 : DB, table_update now db2 t v w
      = Except.error (Err.unknownTable t) := by
    intro db2; simp only [table_update, he, bind, Except.bind]
  have hd : ∀ db2 : DB, table_delete db2 t w
      = Except.error (Err.unknownTable t) := by
    intro db2; simp only [table_delete, he, bind, Except.bind]
  refine ⟨hq db, hi db, hu db, hd db, ?_, ?_, ?_, ?_⟩
  · simp only [tool_table_query, hq]
  · simp only [tool_table_insert, hi]
  · simp only [tool_table_update, hu]
  · simp only [tool_table_delete, hd]

/-- Concrete instance of the amended C2 theorem at table users. -/
theorem C2_blocked_table_witness :
    ("users" ∉ ALLOWED_TABLES)
    ∧ table_query db1 "users" none none none 100 0
        = Except.error (Err.unknownTable "users") :=
  ⟨by decide,
   (C2_blocked_table "users" (by decide) 2000000 db1 none none none 100 0 []).1⟩

/-! ### C8 -/

/-- C8 counterexample: the string consisting of one underscore is made only
of allowed characters (alphanumerics and underscores), yet _quote_ident
rejects it — Python first strips underscores and then requires a non-empty
alphanumeric remainder — so an operation embedding it fails rather than
accepting it. -/
theorem C8_counterexample :
    ("_".data.all (fun c => pyAlnumChar c || c = '_')) = true
    ∧ quoteIdent "_" = Except.error (Err.invalidIdent "_")
    ∧ table_query db1 "medication" none (some [("_", WhereVal.lit (Val.int 1))]) none 100 0
        = Except.error (Err.invalidIdent "_") := by
  refine ⟨by decide, rfl, rfl⟩

/-- The boolean test of _quote_ident, in terms of the character set it
really accepts. -/
lemma quoteIdent_cond (s : String) :
    (!(s.data.filter (fun c => c ≠ '_')).isEmpty
        && (s.data.filter (fun c => c ≠ '_')).all pyAlnumChar) = true
    ↔ ((∀ c ∈ s.data, pyAlnumChar c ∨ c = '_') ∧ (∃ c ∈ s.data, pyAlnumChar c)) := by
  have h_ : pyAlnumChar '_' = false := by decide
  simp only [Bool.and_eq_true, Bool.not_eq_eq_eq_not, Bool.not_true,
    List.isEmpty_eq_false, ne_eq, List.all_eq_true, List.mem_filter,
    decide_not, Bool.not_eq_true', decide_eq_false_iff_not, and_imp]
  constructor
  · rintro ⟨hne, hall⟩
    rcases List.exists_mem_of_ne_nil _ hne with ⟨c, hc⟩
    rcases List.mem_filter.mp hc with ⟨hcs, hcne⟩
    have hcne2 : c ≠ '_' := by simpa using hcne
    constructor
    · intro a ha
      by_cases ha2 : a = '_'
      · exact Or.inr ha2
      · exact Or.inl (hall a ha (by simpa using ha2))
    · exact ⟨c, hcs, hall c hcs (by simpa using hcne2)⟩
  · rintro ⟨hall, c, hcs, hca⟩
    constructor
    · intro hnil
      have hcnu : ¬(c = '_') := by
        intro heq
        rw [heq, h_] at hca
        cases hca
      have hmemf : c ∈ List.filter (fun x => !decide (x = '_')) s.data :=
        List.mem_filter.mpr ⟨hcs, by simpa using hcnu⟩
      rw [hnil] at hmemf
      cases hmemf
    · intro a ha ha2
      rcases hall a ha with h | h
      · exact h
      · exact absurd h ha2

/-- C8 amended: a column name is accepted by _quote_ident exactly when it
consists only of alphanumerics and underscores AND contains at least one
alphanumeric (the all-underscore and empty strings, though made only of
allowed characters, are rejected); any rejected string makes the operation
fail with the invalid-identifier error before any statement executes. -/
theorem C8_ident_charset (s : String) :
    ((∃ q, quoteIdent s = Except.ok q) ↔
      ((∀ c ∈ s.data, pyAlnumChar c ∨ c = '_') ∧ (∃ c ∈ s.data, pyAlnumChar c)))
    ∧ (¬((∀ c ∈ s.data, pyAlnumChar c ∨ c = '_') ∧ (∃ c ∈ s.data, pyAlnumChar c)) →
        ∀ (db : DB) (v : Val) (lim off : Int),
          table_query db "medication" none (some [(s, WhereVal.lit v)]) none lim off
            = Except.error (Err.invalidIdent s)) := by
  constructor
  · constructor
    · rintro ⟨q, hq⟩
      unfold quoteIdent at hq
      by_cases hcond : (!(s.data.filter (fun c => c ≠ '_')).isEmpty
          && (s.data.filter (fun c => c ≠ '_')).all pyAlnumChar) = true
      · exact (quoteIdent_cond s).mp hcond
      · rw [if_neg hcond] at hq; cases hq
    · intro hrhs
      refine ⟨"\"" ++ s ++ "\"", ?_⟩
      unfold quoteIdent
      rw [if_pos ((quoteIdent_cond s).mpr hrhs)]
  · intro hrhs db v lim off
    have hcond : ¬((!(s.data.filter (fun c => c ≠ '_')).isEmpty
        && (s.data.filter (fun c => c ≠ '_')).all pyAlnumChar) = true) := by
      intro hc; exact hrhs ((quoteIdent_cond s).mp hc)
    have hqerr : quoteIdent s = Except.error (Err.invalidIdent s) := by
      unfold quoteIdent; rw [if_neg hcond]
    have hbw : buildWhere (some [(s, WhereVal.lit v)])
        = Except.error (Err.invalidIdent s) := by
      simp only [buildWhere, List.isEmpty, List.mapM_cons, List.mapM_nil,
        buildWhereOne, hqerr, bind, Except.bind, if_neg]
      rfl
    simp only [table_query, bind, Except.bind, hbw]
    rfl

/-- Concrete instance of the amended C8 theorem: a name with a space is
rejected at the operation level. -/
theorem C8_ident_charset_witness :
    table_query db1 "medication" none (some [("a b", WhereVal.lit (Val.int 1))]) none 100 0
      = Except.error (Err.invalidIdent "a b") :=
  (C8_ident_charset "a b").2 (by decide) db1 (Val.int 1) 100 0

/-! ### C6 -/

/-- C6: a where predicate containing an IN over the empty sequence compiles
to an always-false conjunct, so the query succeeds (no error) and returns
zero rows and rowCount zero — it neither raises nor matches everything. -/
theorem C6_in_empty_matches_nothing
    (db : DB) (t : String) (c ob : Option (List String))
    (w : WhereMap) (cs : List Clause) (lim off : Int) (col op : String)
    (ht : ensureAllowedTable t = Except.ok ())
    (hc : validateOptCols t (noneIfEmptyList c) = Except.ok ())
    (hob : validateOptCols t (noneIfEmptyList ob) = Except.ok ())
    (hw : buildWhere (some w) = Except.ok cs)
    (hmem : (col, WhereVal.opList op []) ∈ w)
    (hop : normOp op = "IN") :
    ∃ n, table_query db t c (some w) ob lim off =
      Except.ok { rows := [], rowCount := 0, nextOffset := n } := by
  have haf := alwaysFalse_mem_of_buildWhere hw hmem hop
  have hfilter : (db.getTable t).filter (rowMatches cs) = [] := by
    apply List.filter_eq_nil_iff.mpr
    intro r _
    simp [rowMatches_of_alwaysFalse haf r]
  have hspec := table_query_spec db t c (some w) ob lim off cs ht hc hob hw
  rw [hfilter] at hspec
  refine ⟨if off + lim < ((0 : Nat) : Int) then some (off + lim) else none, ?_⟩
  rw [hspec]
  cases noneIfEmptyList ob with
  | none => simp [applyLimitOffset]
  | some obc => simp [sortRows, applyLimitOffset]

/-- Concrete instance of C6: deleting-style empty IN filter on a query over
a populated table returns no rows and no error. -/
theorem C6_in_empty_witness :
    ∃ n, table_query db1 "medication" none
        (some [("id", WhereVal.opList "IN" [])]) none 100 0 =
      Except.ok { rows := [], rowCount := 0, nextOffset := n } :=
  C6_in_empty_matches_nothing db1 "medication" none none
    [("id", WhereVal.opList "IN" [])] [Clause.alwaysFalse] 100 0 "id" "IN"
    rfl rfl rfl rfl (by decide) (by decide)

/-! ### C4 -/

/-- C4: rowCount of a successful query is the number of rows matching the
predicate, computed independently of limit and offset (two calls differing
only in limit/offset report the same rowCount), and nextOffset is
offset + limit when that sum is strictly below rowCount and null otherwise;
in particular on a table of 120 matching rows, limit 50 offset 0 gives
rowCount 120 and nextOffset 50, while limit 50 offset 100 gives nextOffset
null. -/
theorem C4_pagination_rowcount :
    (∀ (db : DB) (t : String) (c ob : Option (List String)) (w : Option WhereMap)
        (cs : List Clause) (l o l2 o2 : Int),
      ensureAllowedTable t = Except.ok () →
      validateOptCols t (noneIfEmptyList c) = Except.ok () →
      validateOptCols t (noneIfEmptyList ob) = Except.ok () →
      buildWhere w = Except.ok cs →
      ∃ r r2, table_query db t c w ob l o = Except.ok r
        ∧ table_query db t c w ob l2 o2 = Except.ok r2
        ∧ r.rowCount = (((db.getTable t).filter (rowMatches cs)).length : Int)
        ∧ r2.rowCount = r.rowCount
        ∧ r.nextOffset = (if o + l < r.rowCount then some (o + l) else none))
    ∧ (∃ r, table_query db120 "food_24h" none none none 50 0 = Except.ok r
        ∧ r.rowCount = 120 ∧ r.nextOffset = some 50)
    ∧ (∃ r, table_query db120 "food_24h" none none none 50 100 = Except.ok r
        ∧ r.rowCount = 120 ∧ r.nextOffset = none) := by
  have hall : ∀ l : List Row, l.filter (rowMatches []) = l := by
    intro l
    apply List.filter_eq_self.mpr
    intro a _
    simp [rowMatches]
  have hlen : ((db120.getTable "food_24h").filter (rowMatches [])).length = 120 := by
    rw [hall]
    rfl
  refine ⟨?_, ?_, ?_⟩
  · intro db t c ob w cs l o l2 o2 ht hc hob hw
    refine ⟨_, _, table_query_spec db t c w ob l o cs ht hc hob hw,
      table_query_spec db t c w ob l2 o2 cs ht hc hob hw, rfl, rfl, rfl⟩
  · refine ⟨_, table_query_spec db120 "food_24h" none none none 50 0 [] rfl rfl rfl rfl,
      ?_, ?_⟩
    · simp [hlen]
    · simp only [hlen]
      norm_num
  · refine ⟨_, table_query_spec db120 "food_24h" none none none 50 100 [] rfl rfl rfl rfl,
      ?_, ?_⟩
    · simp [hlen]
    · simp only [hlen]
      norm_num

/-- Concrete instance of the universally quantified part of the C4 theorem. -/
theorem C4_pagination_witness :
    ∃ r r2, table_query db1 "medication" none none none 7 0 = Except.ok r
      ∧ table_query db1 "medication" none none none 3 1 = Except.ok r2
      ∧ r.rowCount = (((db1.getTable "medication").filter (rowMatches [])).length : Int)
      ∧ r2.rowCount = r.rowCount
      ∧ r.nextOffset = (if 0 + 7 < r.rowCount then some (0 + 7) else none) :=
  C4_pagination_rowcount.1 db1 "medication" none none none [] 7 0 3 1 rfl rfl rfl rfl

/-! ### C1 -/

/-- C1 counterexample: an update whose non-empty values mapping holds an
out-of-schema key fails with the SchemaError (column validation runs before
the WHERE guard), not the PolicyError the claim promises; and a delete with
the empty predicate, while failing with the PolicyError, does not leave
every row unchanged under src/userdb.py — the per-call purge has already
deleted the expired food row. -/
theorem C1_counterexample :
    (tool_table_update 2000000 db1 "medication" [("bogus", Val.int 1)] (some [])).2
        = Except.error (Err.invalidColumns "medication" ["bogus"])
    ∧ (tool_table_delete 2000000 db1 "medication" (some [])).2
        = Except.error (Err.policyNoWhere "delete")
    ∧ (tool_table_delete 2000000 db1 "medication" (some [])).1.food_24h = []
    ∧ db1.food_24h ≠ [] := by
  refine ⟨rfl, rfl, rfl, by decide⟩

/-- C1 amended: for every allowed table and (for update) every non-empty
values mapping whose keys are all columns of the table, update and delete
with an absent or empty where predicate fail with the PolicyError
(refusing to update/delete without WHERE); the update/delete itself
modifies nothing (the shared operation bodies fail before building any
statement), and in the src/userdb.py tool variants the resulting state is
exactly the state left by the per-call retention purge. -/
theorem C1_mutation_requires_where
    (now : Int) (db : DB) (t : String) (v : List (String × Val)) (w : Option WhereMap)
    (ht : t ∈ ALLOWED_TABLES) (hv : v ≠ [])
    (hkeys : ∀ k ∈ (updateVals now t v).map (·.1), (getColumns t).contains k)
    (hw : w = none ∨ w = some []) :
    table_update now db t v w = Except.error (Err.policyNoWhere "update")
    ∧ table_delete db t w = Except.error (Err.policyNoWhere "delete")
    ∧ tool_table_update now db t v w
        = (purgeExpired now db, Except.error (Err.policyNoWhere "update"))
    ∧ tool_table_delete now db t w
        = (purgeExpired now db, Except.error (Err.policyNoWhere "delete")) := by
  have he : ensureAllowedTable t = Except.ok () := by
    simp [ensureAllowedTable, ht]
  have hve : v.isEmpty = false := by simpa using hv
  have hval := validateColumns_ok t ((updateVals now t v).map (·.1)) hkeys
  have hbw : buildWhere w = Except.ok [] := by
    rcases hw with rfl | rfl <;> rfl
  have hu : ∀ db2 : DB, table_update now db2 t v w
      = Except.error (Err.policyNoWhere "update") := by
    intro db2
    simp only [table_update, he, hve, hval, hbw, bind, Except.bind,
      Bool.false_eq_true, if_false, List.isEmpty_nil, if_true]
  have hd : ∀ db2 : DB, table_delete db2 t w
      = Except.error (Err.policyNoWhere "delete") := by
    intro db2
    simp only [table_delete, he, hbw, bind, Except.bind, List.isEmpty_nil, if_true]
  refine ⟨hu db, hd db, ?_, ?_⟩
  · simp only [tool_table_update, hu]
  · simp only [tool_table_delete, hd]

/-- Concrete instance of the amended C1 theorem. -/
theorem C1_mutation_requires_where_witness :
    table_update 1000 db0 "medication" [("name", Val.text "aspirin")] none
        = Except.error (Err.policyNoWhere "update")
    ∧ table_delete db0 "medication" none
        = Except.error (Err.policyNoWhere "delete") :=
  ⟨(C1_mutation_requires_where 1000 db0 "medication" [("name", Val.text "aspirin")] none
      (by decide) (by decide) (by decide) (Or.inl rfl)).1,
   (C1_mutation_requires_where 1000 db0 "medication" [("name", Val.text "aspirin")] none
      (by decide) (by decide) (by decide) (Or.inl rfl)).2.1⟩

/-! ### C10 -/

/-- C10 counterexample: an update/delete whose predicate is a single
IN-over-empty-sequence entry indeed passes the WHERE guard and reports
rowCount 0 — but under src/userdb.py it is not true that no row of any
table changes: the per-call purge deletes the expired food row first. -/
theorem C10_counterexample :
    (tool_table_delete 2000000 db1 "medication"
        (some [("id", WhereVal.opList "IN" [])])).2
      = Except.ok { rowCount := 0, lastRowId := none }
    ∧ (tool_table_delete 2000000 db1 "medication"
        (some [("id", WhereVal.opList "IN" [])])).1.food_24h = []
    ∧ db1.food_24h ≠ [] := by
  refine ⟨rfl, rfl, by decide⟩

/-- C10 amended: for every allowed table, update (with valid non-empty
values) and delete with a where predicate consisting solely of one
identifier-valid column mapped to IN over the empty sequence do not raise
the mandatory-WHERE PolicyError: the always-false WHERE clause passes the
guard, the statement executes and reports rowCount 0, and the update/delete
itself changes no row — the shared operation bodies return the state
unchanged, while the src/userdb.py tool variants leave exactly the state
produced by the per-call retention purge. -/
theorem C10_in_empty_passes_guard
    (now : Int) (db : DB) (t : String) (v : List (String × Val)) (col q : String)
    (ht : t ∈ ALLOWED_TABLES) (hv : v ≠ [])
    (hkeys : ∀ k ∈ (updateVals now t v).map (·.1), (getColumns t).contains k)
    (hq : quoteIdent col = Except.ok q) :
    table_update now db t v (some [(col, WhereVal.opList "IN" [])])
        = Except.ok (db, { rowCount := 0, lastRowId := none })
    ∧ table_delete db t (some [(col, WhereVal.opList "IN" [])])
        = Except.ok (db, { rowCount := 0, lastRowId := none })
    ∧ tool_table_update now db t v (some [(col, WhereVal.opList "IN" [])])
        = (purgeExpired now db, Except.ok { rowCount := 0, lastRowId := none })
    ∧ tool_table_delete now db t (some [(col, WhereVal.opList "IN" [])])
        = (purgeExpired now db, Except.ok { rowCount := 0, lastRowId := none }) := by
  have he : ensureAllowedTable t = Except.ok () := by
    simp [ensureAllowedTable, ht]
  have hve : v.isEmpty = false := by simpa using hv
  have hval := validateColumns_ok t ((updateVals now t v).map (·.1)) hkeys
  have hbw : buildWhere (some [(col, WhereVal.opList "IN" [])])
      = Except.ok [Clause.alwaysFalse] := by
    simp only [buildWhere, List.isEmpty_cons, List.mapM_cons, List.mapM_nil,
      buildWhereOne_in_empty col "IN" q hq rfl, bind, Except.bind, pure,
      Except.pure, Bool.false_eq_true, if_false]
  have hmatch : ∀ r : Row, rowMatches [Clause.alwaysFalse] r = false := by
    intro r
    exact rowMatches_of_alwaysFalse (by simp) r
  have hfilter : ∀ l : List Row, l.filter (rowMatches [Clause.alwaysFalse]) = [] := by
    intro l
    apply List.filter_eq_nil_iff.mpr
    intro r _
    simp [hmatch r]
  have hkeep : ∀ l : List Row,
      l.filter (fun r => !(rowMatches [Clause.alwaysFalse] r)) = l := by
    intro l
    apply List.filter_eq_self.mpr
    intro r _
    simp [hmatch r]
  have hmap : ∀ l : List Row,
      (l.map (fun r => if rowMatches [Clause.alwaysFalse] r
          then applyVals (updateVals now t v) r else r)) = l := by
    intro l
    conv_rhs => rw [← List.map_id l]
    apply List.map_congr_left
    intro a _
    simp [hmatch a]
  have hany : ∀ l : List Row,
      (l.any (fun r => rowMatches [Clause.alwaysFalse] r
          && !(rowSatisfiesNotNull t (applyVals (updateVals now t v) r)))) = false := by
    intro l
    apply List.any_eq_false.mpr
    intro r _
    simp [hmatch r]
  have hu : ∀ db2 : DB, table_update now db2 t v (some [(col, WhereVal.opList "IN" [])])
      = Except.ok (db2, { rowCount := 0, lastRowId := none }) := by
    intro db2
    simp only [table_update, he, hve, hval, hbw, bind, Except.bind,
      Bool.false_eq_true, if_false, List.isEmpty_cons, hany, hmap, hfilter,
      List.length_nil, setTable_getTable]
    rfl
  have hd : ∀ db2 : DB, table_delete db2 t (some [(col, WhereVal.opList "IN" [])])
      = Except.ok (db2, { rowCount := 0, lastRowId := none }) := by
    intro db2
    simp only [table_delete, he, hbw, bind, Except.bind, List.isEmpty_cons,
      Bool.false_eq_true, if_false, hkeep, setTable_getTable]
    simp
  refine ⟨hu db, hd db, ?_, ?_⟩
  · simp only [tool_table_update, hu]
  · simp only [tool_table_delete, hd]

/-- Concrete instance of the amended C10 theorem. -/
theorem C10_in_empty_passes_guard_witness :
    table_delete db0 "medication" (some [("id", WhereVal.opList "IN" [])])
      = Except.ok (db0, { rowCount := 0, lastRowId := none }) :=
  (C10_in_empty_passes_guard 1000 db0 "medication" [("name", Val.text "aspirin")]
    "id" "\"id\"" (by decide) (by decide) (by decide) rfl).2.1

/-! ### C7 -/

/-- C7: on a medication query with no caller predicate, the
src/agents/new_agent_trial.py normalizer injects ordering [updated_at],
limit 50 and the trivially-true predicate created_at strictly below now —
as the claim states — but the src/new_agent.py normalizer instead injects
taken_at at least now minus 86400, where taken_at is not even a column of
medication; when the caller supplied a predicate, neither normalizer
replaces it. -/
theorem C7_normalizer_divergence :
    normalize_query_args_trial 1000 medPayload
      = { table := some "medication", columns := none,
          order_by := some ["updated_at"],
          whereMap := [("created_at", WhereVal.opVal "<" (Val.int 1000))],
          limit := some 50, offset := none }
    ∧ normalize_query_args_NA 1000 medPayload
      = { table := some "medication", columns := none,
          order_by := some ["updated_at"],
          whereMap := [("taken_at", WhereVal.opVal ">=" (Val.int (1000 - 86400)))],
          limit := some 50, offset := none }
    ∧ ¬("taken_at" ∈ getColumns "medication")
    ∧ (normalize_query_args_trial 1000 medPayloadWithWhere).whereMap
        = [("name", WhereVal.lit (Val.text "aspirin"))]
    ∧ (normalize_query_args_NA 1000 medPayloadWithWhere).whereMap
        = [("name", WhereVal.lit (Val.text "aspirin"))]
    ∧ (normalize_query_args_trial 1000 medPayloadWithWhere).order_by
        = some ["updated_at"]
    ∧ (normalize_query_args_trial 1000 medPayloadWithWhere).limit = some 50 := by
  refine ⟨rfl, rfl, by decide, rfl, rfl, rfl, rfl⟩

/-! ### C3 -/

/-- C3 counterexample: "ghost" is not a column of medication, yet a query
filtering on it raises no SchemaError at all: the identifier passes the
charset check, SQLite resolves the unknown double-quoted name as the string
literal "ghost", the comparison "ghost" = "ghost" holds for every row, and
the whole table is returned — the unknown name was silently reinterpreted,
not surfaced. -/
theorem C3_counterexample :
    ¬("ghost" ∈ getColumns "medication")
    ∧ table_query db1 "medication" none
        (some [("ghost", WhereVal.lit (Val.text "ghost"))]) none 100 0
      = Except.ok { rows := [mrow 1], rowCount := 1, nextOffset := none } := by
  refine ⟨by decide, rfl⟩

/-- C3 amended: unknown column names supplied in columns, order_by, insert
values or update values do fail with the SchemaError listing exactly the
offending identifiers, in order, before any statement executes; but
where-predicate keys are only charset-validated — a charset-valid unknown
key raises no SchemaError and reaches the engine, which reads it as a
string literal. -/
theorem C3_unknown_column_validation
    (db : DB) (t : String) (now : Int) (ht : t ∈ ALLOWED_TABLES) :
    (∀ (cols : List String) (w : Option WhereMap) (ob : Option (List String))
        (l o : Int),
      cols.filter (fun c => !((getColumns t).contains c)) ≠ [] →
      table_query db t (some cols) w ob l o
        = Except.error (Err.invalidColumns t
            (cols.filter (fun c => !((getColumns t).contains c)))))
    ∧ (∀ (obc : List String) (w : Option WhereMap) (l o : Int),
      obc.filter (fun c => !((getColumns t).contains c)) ≠ [] →
      table_query db t none w (some obc) l o
        = Except.error (Err.invalidColumns t
            (obc.filter (fun c => !((getColumns t).contains c)))))
    ∧ (∀ v : List (String × Val), v ≠ [] →
      ((injectTimestamps now t v).map (·.1)).filter
          (fun c => !((getColumns t).contains c)) ≠ [] →
      table_insert now db t v
        = Except.error (Err.invalidColumns t
            (((injectTimestamps now t v).map (·.1)).filter
              (fun c => !((getColumns t).contains c)))))
    ∧ (∀ (v : List (String × Val)) (w : Option WhereMap), v ≠ [] →
      ((updateVals now t v).map (·.1)).filter
          (fun c => !((getColumns t).contains c)) ≠ [] →
      table_update now db t v w
        = Except.error (Err.invalidColumns t
            (((updateVals now t v).map (·.1)).filter
              (fun c => !((getColumns t).contains c)))))
    ∧ (∀ (col : String) (v : Val) (l o : Int),
      (∃ q, quoteIdent col = Except.ok q) →
      ∃ res, table_query db t none (some [(col, WhereVal.lit v)]) none l o
        = Except.ok res) := by
  have he : ensureAllowedTable t = Except.ok () := by
    simp [ensureAllowedTable, ht]
  refine ⟨?_, ?_, ?_, ?_, ?_⟩
  · intro cols w ob l o hbad
    have hcne : cols ≠ [] := by
      intro h; rw [h] at hbad; exact hbad rfl
    have hnie : noneIfEmptyList (some cols) = some cols := by
      cases cols with
      | nil => cases hcne rfl
      | cons a l2 => rfl
    have hverr := validateColumns_err t cols hbad
    simp only [table_query, he, hnie, validateOptCols, hverr, bind, Except.bind]
  · intro obc w l o hbad
    have hcne : obc ≠ [] := by
      intro h; rw [h] at hbad; exact hbad rfl
    have hnie : noneIfEmptyList (some obc) = some obc := by
      cases obc with
      | nil => cases hcne rfl
      | cons a l2 => rfl
    have hverr := validateColumns_err t obc hbad
    have hnn : noneIfEmptyList (none : Option (List String)) = none := rfl
    simp only [table_query, he, hnie, hnn, validateOptCols, hverr,
      bind, Except.bind]
  · intro v hv hbad
    have hve : v.isEmpty = false := by simpa using hv
    have hverr := validateColumns_err t ((injectTimestamps now t v).map (·.1)) hbad
    simp only [table_insert, he, hve, hverr, bind, Except.bind,
      Bool.false_eq_true, if_false]
  · intro v w hv hbad
    have hve : v.isEmpty = false := by simpa using hv
    have hverr := validateColumns_err t ((updateVals now t v).map (·.1)) hbad
    simp only [table_update, he, hve, hverr, bind, Except.bind,
      Bool.false_eq_true, if_false]
  · intro col v l o hq
    rcases hq with ⟨q, hq⟩
    have hbw : buildWhere (some [(col, WhereVal.lit v)])
        = Except.ok [Clause.cmp col "=" v] := by
      simp only [buildWhere, List.isEmpty_cons, List.mapM_cons, List.mapM_nil,
        buildWhereOne, hq, bind, Except.bind, pure, Except.pure,
        Bool.false_eq_true, if_false]
    exact ⟨_, table_query_spec db t none (some [(col, WhereVal.lit v)]) none l o
      [Clause.cmp col "=" v] he rfl rfl hbw⟩

/-- Concrete instance of the amended C3 theorem: a misspelled column in the
columns list is surfaced verbatim. -/
theorem C3_unknown_column_validation_witness :
    table_query db1 "medication" (some ["nmae"]) none none 100 0
      = Except.error (Err.invalidColumns "medication" ["nmae"]) := by
  have h := (C3_unknown_column_validation db1 "medication" 1000 (by decide)).1
    ["nmae"] none none 100 0 (by decide)
  simpa using h

/-! ### C5 helper lemmas -/

/-- Association lookup succeeds on the left part of an append. -/
lemma lookup_append_some {v w : List (String × Val)} {k : String} {val : Val}
    (h : v.lookup k = some val) : (v ++ w).lookup k = some val := by
  induction v with
  | nil => cases h
  | cons a rest ih =>
      obtain ⟨a1, a2⟩ := a
      rw [List.cons_append]
      by_cases hk : k = a1
      · have hb : (k == a1) = true := beq_iff_eq.mpr hk
        simp only [List.lookup, hb] at h ⊢; exact h
      · have hb : (k == a1) = false := beq_eq_false_iff_ne.mpr hk
        simp only [List.lookup, hb] at h ⊢; exact ih h

/-- Association lookup falls through to the right part of an append when
the left part lacks the key. -/
lemma lookup_append_none {v : List (String × Val)} {k : String}
    (h : v.lookup k = none) (w : List (String × Val)) :
    (v ++ w).lookup k = w.lookup k := by
  induction v with
  | nil => rfl
  | cons a rest ih =>
      obtain ⟨a1, a2⟩ := a
      rw [List.cons_append]
      by_cases hk : k = a1
      · have hb : (k == a1) = true := beq_iff_eq.mpr hk
        simp only [List.lookup, hb] at h; cases h
      · have hb : (k == a1) = false := beq_eq_false_iff_ne.mpr hk
        simp only [List.lookup, hb] at h ⊢; exact ih h

/-- A successful association lookup means the key occurs in the key list. -/
lemma mem_keys_of_lookup {l : List (String × Val)} {k : String} {val : Val}
    (h : l.lookup k = some val) : k ∈ l.map (·.1) := by
  induction l with
  | nil => cases h
  | cons a rest ih =>
      obtain ⟨a1, a2⟩ := a
      rw [List.map_cons]
      by_cases hk : k = a1
      · exact List.mem_cons.mpr (Or.inl hk)
      · have hb : (k == a1) = false := beq_eq_false_iff_ne.mpr hk
        simp only [List.lookup, hb] at h
        exact List.mem_cons_of_mem a1 (ih h)

/-- Timestamp injection preserves every caller-supplied binding. -/
lemma injectTimestamps_lookup_pres {now : Int} {t k : String}
    {v : List (String × Val)} {val : Val} (h : v.lookup k = some val) :
    (injectTimestamps now t v).lookup k = some val := by
  simp only [injectTimestamps]
  split
  · split
    · exact lookup_append_some (lookup_append_some h)
    · exact lookup_append_some h
  · split
    · exact lookup_append_some h
    · exact h

/-- Looking up a schema column in the row a list of column descriptions
builds: the id column carries the assigned id, every other column the
caller value or NULL. -/
lemma lookup_buildRow_generic (l : List ColInfo) (idv : Int)
    (vals : List (String × Val)) (k : String) (hk : k ∈ l.map (·.name)) :
    ((l.map (fun c => if c.name = "id" then (c.name, Val.int idv)
        else (c.name, (vals.lookup c.name).getD Val.null))).lookup k)
      = some (if k = "id" then Val.int idv else (vals.lookup k).getD Val.null) := by
  induction l with
  | nil => cases hk
  | cons c rest ih =>
      rw [List.map_cons] at hk ⊢
      by_cases hkc : k = c.name
      · have hb : (k == c.name) = true := beq_iff_eq.mpr hkc
        by_cases hid : c.name = "id"
        · rw [if_pos hid]
          simp [List.lookup, hb, hkc, hid]
        · rw [if_neg hid]
          simp [List.lookup, hb, hkc, hid]
      · have hb : (k == c.name) = false := beq_eq_false_iff_ne.mpr hkc
        have hk2 : k ∈ rest.map (·.name) := by
          rcases List.mem_cons.mp hk with h | h
          · exact absurd h hkc
          · exact h
        by_cases hid : c.name = "id"
        · rw [if_pos hid]
          simp only [List.lookup, hb]
          exact ih hk2
        · rw [if_neg hid]
          simp only [List.lookup, hb]
          exact ih hk2

/-- The same fact stated for buildInsertRow over a table's schema. -/
lemma lookup_buildInsertRow (t : String) (idv : Int) (vals : List (String × Val))
    (k : String) (hk : k ∈ getColumns t) :
    (buildInsertRow t idv vals).lookup k
      = some (if k = "id" then Val.int idv else (vals.lookup k).getD Val.null) := by
  unfold getColumns at hk
  exact lookup_buildRow_generic (tableCols t) idv vals k hk

/-- An equality comparison of the id column against an id the row does not
carry evaluates to false (whatever the stored id value is). -/
lemma idcmp_false (r : Row) (seqv : Int) (h : rowId r ≠ some seqv) :
    evalCmp "=" (lookupVal r "id") (Val.int seqv) = false := by
  unfold rowId at h
  unfold lookupVal
  cases hl : r.lookup "id" with
  | none => rfl
  | some v =>
      cases v with
      | null => rfl
      | text s => rfl
      | int i =>
          rw [hl] at h
          have hne : i ≠ seqv := by
            intro heq; exact h (by rw [heq])
          unfold evalCmp
          rw [if_neg (by decide : ¬(("=" : String) = "LIKE"))]
          unfold compareVals
          have : compare i seqv ≠ Ordering.eq := by
            intro hc; exact hne (compare_eq_iff_eq.mp hc)
          simp [this]

/-- The id-equality predicate singles out the freshly inserted row. -/
lemma filter_id_single (rows0 : List Row) (row : Row) (seqv : Int)
    (hfresh : ∀ r ∈ rows0, rowId r ≠ some seqv)
    (hrow : row.lookup "id" = some (Val.int seqv)) :
    (rows0 ++ [row]).filter (rowMatches [Clause.cmp "id" "=" (Val.int seqv)]) = [row] := by
  rw [List.filter_append]
  have h1 : rows0.filter (rowMatches [Clause.cmp "id" "=" (Val.int seqv)]) = [] := by
    apply List.filter_eq_nil_iff.mpr
    intro r hr
    simp [rowMatches, evalClause, idcmp_false r seqv (hfresh r hr)]
  have h2 : [row].filter (rowMatches [Clause.cmp "id" "=" (Val.int seqv)]) = [row] := by
    apply List.filter_eq_self.mpr
    intro r hr
    rw [List.mem_singleton.mp hr]
    have hcmp : compare seqv seqv = Ordering.eq := compare_eq_iff_eq.mpr rfl
    simp [rowMatches, evalClause, lookupVal, hrow, evalCmp, compareVals, hcmp]
  rw [h1, h2, List.nil_append]

/-- The per-call purge leaves every AUTOINCREMENT counter unchanged. -/
lemma getSeq_purge (now : Int) (db : DB) (t : String) :
    (purgeExpired now db).getSeq t = db.getSeq t := by
  unfold DB.getSeq purgeExpired
  split <;> rfl

/-- Every row surviving the purge was a row of the original table. -/
lemma purge_getTable_subset (now : Int) (db : DB) {t : String}
    (ht : t ∈ ALLOWED_TABLES) :
    ∀ r ∈ (purgeExpired now db).getTable t, r ∈ db.getTable t := by
  simp only [ALLOWED_TABLES, List.mem_cons, List.not_mem_nil, or_false] at ht
  rcases ht with rfl | rfl | rfl <;> intro r hr <;>
    simp only [DB.getTable, purgeExpired, if_pos, if_neg, reduceIte] at hr ⊢ <;>
    first
      | exact List.mem_of_mem_filter hr
      | exact hr

/-- Closed form of a successful table_insert. -/
lemma table_insert_spec (now : Int) (db : DB) (t : String) (v : List (String × Val))
    (ht : ensureAllowedTable t = Except.ok ())
    (hv : v.isEmpty = false)
    (hval : validateColumns t ((injectTimestamps now t v).map (·.1)) = Except.ok ())
    (hid : (injectTimestamps now t v).lookup "id" = none)
    (hnn : rowSatisfiesNotNull t
        (buildInsertRow t (db.getSeq t) (injectTimestamps now t v)) = true) :
    table_insert now db t v
      = Except.ok (insResultDB now db t v,
          { rowCount := 1, lastRowId := some (db.getSeq t) }) := by
  simp only [table_insert, insResultDB, ht, hv, hval, hid, hnn, bind, Except.bind,
    Bool.false_eq_true, if_false, Bool.not_true]

/-- Setting an AUTOINCREMENT counter does not change any table's rows. -/
lemma getTable_setSeq (db : DB) (t u : String) (n : Int) :
    (db.setSeq t n).getTable u = db.getTable u := by
  unfold DB.getTable DB.setSeq
  repeat' split
  all_goals rfl

/-- Reading back the rows just written to an allowed table. -/
lemma getTable_setTable_self2 (db : DB) {t : String} (ht : t ∈ ALLOWED_TABLES)
    (rows : List Row) : (db.setTable t rows).getTable t = rows := by
  have ht2 := ht
  simp only [ALLOWED_TABLES, List.mem_cons, List.not_mem_nil, or_false] at ht2
  rcases ht2 with rfl | rfl | rfl <;> rfl

/-- Filtering twice with the same predicate filters once. -/
lemma filter_filter_self {α : Type} (p : α → Bool) (l : List α) :
    (l.filter p).filter p = l.filter p := by
  apply List.filter_eq_self.mpr
  intro a ha
  exact (List.mem_filter.mp ha).2

/-- A WHERE-predicated SELECT by the fresh id on a state whose table holds
the old rows plus the freshly inserted row returns exactly that row. -/
lemma query_after_insert (db2 : DB) (t : String) (seqv : Int)
    (rows0 : List Row) (row : Row)
    (ht : ensureAllowedTable t = Except.ok ())
    (hgt : db2.getTable t = rows0 ++ [row])
    (hfresh : ∀ r ∈ rows0, rowId r ≠ some seqv)
    (hrow : row.lookup "id" = some (Val.int seqv)) :
    table_query db2 t none (some [("id", WhereVal.lit (Val.int seqv))]) none 100 0
      = Except.ok { rows := [row], rowCount := 1, nextOffset := none } := by
  have hq : quoteIdent "id" = Except.ok "\"id\"" := rfl
  have hbw : buildWhere (some [("id", WhereVal.lit (Val.int seqv))])
      = Except.ok [Clause.cmp "id" "=" (Val.int seqv)] := by
    simp only [buildWhere, List.isEmpty_cons, Bool.false_eq_true, if_false,
      List.mapM_cons, List.mapM_nil, buildWhereOne, hq, bind, Except.bind,
      pure, Except.pure]
  have hspec := table_query_spec db2 t none
    (some [("id", WhereVal.lit (Val.int seqv))]) none 100 0
    [Clause.cmp "id" "=" (Val.int seqv)] ht rfl rfl hbw
  rw [hgt, filter_id_single rows0 row seqv hfresh hrow] at hspec
  rw [hspec]
  have htake : List.take (Int.toNat 100) [row] = [row] :=
    List.take_of_length_le (by simp)
  norm_num [noneIfEmptyList, applyLimitOffset, projectRow, htake]

/-- Purging again right after an insert of a non-purge-eligible row into an
already-purged state changes nothing. -/
lemma purge_insResult_stable (now : Int) (db : DB) {t : String}
    (ht : t ∈ ALLOWED_TABLES) (v : List (String × Val))
    (hsmh : rowMatches (purgeMedicalHistoryClauses now)
        (buildInsertRow t ((purgeExpired now db).getSeq t)
          (injectTimestamps now t v)) = false)
    (hsf : rowMatches (purgeFoodClauses now)
        (buildInsertRow t ((purgeExpired now db).getSeq t)
          (injectTimestamps now t v)) = false) :
    purgeExpired now (insResultDB now (purgeExpired now db) t v)
      = insResultDB now (purgeExpired now db) t v := by
  rw [getSeq_purge] at hsmh hsf
  have ht2 := ht
  simp only [ALLOWED_TABLES, List.mem_cons, List.not_mem_nil, or_false] at ht2
  rcases ht2 with rfl | rfl | rfl <;>
    (simp only [DB.getSeq, String.reduceEq, reduceIte] at hsmh hsf
     simp [insResultDB, DB.setTable, DB.setSeq, DB.getTable, DB.getSeq,
       purgeExpired, List.filter_append, filter_filter_self, hsmh, hsf])

/-! ### C5 -/

/-- C5 counterexample: under src/userdb.py, inserting a valid food_24h row
whose taken_at lies more than a day in the past succeeds, but the follow-up
query by the returned lastRowId returns zero rows — the per-call purge at
the start of the query deleted the row — so the round trip does not return
exactly one row for every valid values mapping and database state. -/
theorem C5_counterexample :
    (tool_table_insert 2000000 db0 "food_24h"
        [("name", Val.text "pear"), ("taken_at", Val.int 0)]).2
      = Except.ok { rowCount := 1, lastRowId := some 1 }
    ∧ ((tool_table_query 2000000
          (tool_table_insert 2000000 db0 "food_24h"
            [("name", Val.text "pear"), ("taken_at", Val.int 0)]).1
          "food_24h" none (some [("id", WhereVal.lit (Val.int 1))]) none 100 0).2
        = Except.ok { rows := [], rowCount := 0, nextOffset := none }) := by
  refine ⟨rfl, rfl⟩

/-- C5 amended: insert followed by query-by-lastRowId returns exactly one
row — the inserted row, which agrees with the caller's values and carries
the injected timestamps plus the server-assigned id — provided the inserted
row is not purge-eligible at query time (and the values are schema-valid,
id-free, NOT-NULL-satisfying, and the table's rows carry ids below the
AUTOINCREMENT counter).  The shared operation bodies (src/agents/userdb.py,
which purge only at startup) satisfy this unconditionally on fresh rows;
the src/userdb.py tool variants purge at each call, which is what makes the
non-eligibility condition necessary. -/
theorem C5_insert_query_roundtrip
    (now : Int) (db : DB) (t : String) (v : List (String × Val))
    (ht : t ∈ ALLOWED_TABLES) (hv : v ≠ [])
    (hkeys : ∀ k ∈ (injectTimestamps now t v).map (·.1), (getColumns t).contains k)
    (hid : (injectTimestamps now t v).lookup "id" = none)
    (hnn : rowSatisfiesNotNull t
        (buildInsertRow t (db.getSeq t) (injectTimestamps now t v)) = true)
    (hfresh : ∀ r ∈ db.getTable t, rowId r ≠ some (db.getSeq t))
    (hsmh : rowMatches (purgeMedicalHistoryClauses now)
        (buildInsertRow t (db.getSeq t) (injectTimestamps now t v)) = false)
    (hsf : rowMatches (purgeFoodClauses now)
        (buildInsertRow t (db.getSeq t) (injectTimestamps now t v)) = false) :
    table_insert now db t v
      = Except.ok (insResultDB now db t v,
          { rowCount := 1, lastRowId := some (db.getSeq t) })
    ∧ table_query (insResultDB now db t v) t none
        (some [("id", WhereVal.lit (Val.int (db.getSeq t)))]) none 100 0
      = Except.ok
          { rows := [buildInsertRow t (db.getSeq t) (injectTimestamps now t v)],
            rowCount := 1, nextOffset := none }
    ∧ tool_table_insert now db t v
      = (insResultDB now (purgeExpired now db) t v,
         Except.ok { rowCount := 1, lastRowId := some (db.getSeq t) })
    ∧ (tool_table_query now (insResultDB now (purgeExpired now db) t v) t none
        (some [("id", WhereVal.lit (Val.int (db.getSeq t)))]) none 100 0).2
      = Except.ok
          { rows := [buildInsertRow t (db.getSeq t) (injectTimestamps now t v)],
            rowCount := 1, nextOffset := none }
    ∧ (∀ k val, v.lookup k = some val →
        (buildInsertRow t (db.getSeq t) (injectTimestamps now t v)).lookup k
          = some val)
    ∧ ((getColumns t).contains "created_at" = true → v.lookup "created_at" = none →
        (buildInsertRow t (db.getSeq t) (injectTimestamps now t v)).lookup "created_at"
          = some (Val.int now))
    ∧ ((getColumns t).contains "updated_at" = true → v.lookup "updated_at" = none →
        (buildInsertRow t (db.getSeq t) (injectTimestamps now t v)).lookup "updated_at"
          = some (Val.int now))
    ∧ (buildInsertRow t (db.getSeq t) (injectTimestamps now t v)).lookup "id"
        = some (Val.int (db.getSeq t)) := by
  have he : ensureAllowedTable t = Except.ok () := by
    simp [ensureAllowedTable, ht]
  have hve : v.isEmpty = false := by simpa using hv
  have hval := validateColumns_ok t ((injectTimestamps now t v).map (·.1)) hkeys
  have hidmem : "id" ∈ getColumns t := by
    have ht2 := ht
    simp only [ALLOWED_TABLES, List.mem_cons, List.not_mem_nil, or_false] at ht2
    rcases ht2 with rfl | rfl | rfl <;> decide
  have hrowid : (buildInsertRow t (db.getSeq t) (injectTimestamps now t v)).lookup "id"
      = some (Val.int (db.getSeq t)) := by
    rw [lookup_buildInsertRow t (db.getSeq t) (injectTimestamps now t v) "id" hidmem]
    rw [if_pos rfl]
  have hrowidP : (buildInsertRow t ((purgeExpired now db).getSeq t)
      (injectTimestamps now t v)).lookup "id"
      = some (Val.int (db.getSeq t)) := by
    rw [getSeq_purge]
    exact hrowid
  have hcore := table_insert_spec now db t v he hve hval hid hnn
  have hgt : (insResultDB now db t v).getTable t
      = db.getTable t ++ [buildInsertRow t (db.getSeq t) (injectTimestamps now t v)] := by
    unfold insResultDB
    rw [getTable_setSeq, getTable_setTable_self2 db ht]
  have hquery := query_after_insert (insResultDB now db t v) t (db.getSeq t)
    (db.getTable t) (buildInsertRow t (db.getSeq t) (injectTimestamps now t v))
    he hgt hfresh hrowid
  have hnnP : rowSatisfiesNotNull t
      (buildInsertRow t ((purgeExpired now db).getSeq t) (injectTimestamps now t v))
      = true := by
    rw [getSeq_purge]; exact hnn
  have hfreshP : ∀ r ∈ (purgeExpired now db).getTable t,
      rowId r ≠ some ((purgeExpired now db).getSeq t) := by
    rw [getSeq_purge]
    intro r hr
    exact hfresh r (purge_getTable_subset now db ht r hr)
  have hcoreP := table_insert_spec now (purgeExpired now db) t v he hve hval hid hnnP
  have htool : tool_table_insert now db t v
      = (insResultDB now (purgeExpired now db) t v,
         Except.ok { rowCount := 1, lastRowId := some (db.getSeq t) }) := by
    simp only [tool_table_insert, hcoreP, getSeq_purge]
  have hgtP : (insResultDB now (purgeExpired now db) t v).getTable t
      = (purgeExpired now db).getTable t
          ++ [buildInsertRow t (db.getSeq t) (injectTimestamps now t v)] := by
    unfold insResultDB
    rw [getTable_setSeq, getTable_setTable_self2 (purgeExpired now db) ht, getSeq_purge]
  have hsmhP : rowMatches (purgeMedicalHistoryClauses now)
      (buildInsertRow t ((purgeExpired now db).getSeq t) (injectTimestamps now t v))
      = false := by
    rw [getSeq_purge]; exact hsmh
  have hsfP : rowMatches (purgeFoodClauses now)
      (buildInsertRow t ((purgeExpired now db).getSeq t) (injectTimestamps now t v))
      = false := by
    rw [getSeq_purge]; exact hsf
  have hstable := purge_insResult_stable now db ht v hsmhP hsfP
  have hfreshP2 : ∀ r ∈ (purgeExpired now db).getTable t, rowId r ≠ some (db.getSeq t) := by
    intro r hr
    exact hfresh r (purge_getTable_subset now db ht r hr)
  have hqueryP := query_after_insert (insResultDB now (purgeExpired now db) t v) t
    (db.getSeq t) ((purgeExpired now db).getTable t)
    (buildInsertRow t (db.getSeq t) (injectTimestamps now t v))
    he hgtP hfreshP2 hrowid
  have htoolq : (tool_table_query now (insResultDB now (purgeExpired now db) t v) t none
      (some [("id", WhereVal.lit (Val.int (db.getSeq t)))]) none 100 0).2
      = Except.ok
          { rows := [buildInsertRow t (db.getSeq t) (injectTimestamps now t v)],
            rowCount := 1, nextOffset := none } := by
    simp only [tool_table_query, hstable, hqueryP]
  refine ⟨hcore, hquery, htool, htoolq, ?_, ?_, ?_, hrowid⟩
  · intro k val hkv
    have hvals : (injectTimestamps now t v).lookup k = some val :=
      injectTimestamps_lookup_pres hkv
    have hkne : k ≠ "id" := by
      intro heq
      rw [heq] at hvals
      rw [hid] at hvals
      cases hvals
    have hkmem : k ∈ getColumns t := by
      have hmem := mem_keys_of_lookup hvals
      have := hkeys k hmem
      simpa using this
    rw [lookup_buildInsertRow t (db.getSeq t) (injectTimestamps now t v) k hkmem]
    rw [if_neg hkne, hvals]
    rfl
  · intro hcontains hmiss
    have hvals : (injectTimestamps now t v).lookup "created_at" = some (Val.int now) := by
      simp only [injectTimestamps, hcontains, hmiss, Option.isNone_none,
        Bool.and_true, if_true, reduceIte]
      have hv1 : (v ++ [("created_at", Val.int now)]).lookup "created_at"
          = some (Val.int now) := by
        rw [lookup_append_none hmiss]
        rfl
      split
      · exact lookup_append_some hv1
      · exact hv1
    have hkne : ("created_at" : String) ≠ "id" := by decide
    have hkmem : "created_at" ∈ getColumns t := by
      rcases List.contains_iff_exists_mem_beq.mp hcontains with ⟨x, hx, hbeq⟩
      rw [← eq_of_beq hbeq] at hx
      exact hx
    rw [lookup_buildInsertRow t (db.getSeq t) (injectTimestamps now t v) "created_at" hkmem]
    rw [if_neg hkne, hvals]
    rfl
  · intro hcontains hmiss
    have hvals : (injectTimestamps now t v).lookup "updated_at" = some (Val.int now) := by
      simp only [injectTimestamps]
      have hun : ∀ w : List (String × Val), w.lookup "updated_at" = none →
          (if ((getColumns t).contains "updated_at" && (w.lookup "updated_at").isNone) = true
           then w ++ [("updated_at", Val.int now)] else w).lookup "updated_at"
            = some (Val.int now) := by
        intro w hw
        rw [hw]
        simp only [hcontains, Option.isNone_none, Bool.and_true, if_true, reduceIte]
        rw [lookup_append_none hw]
        rfl
      split
      · rename_i hcond
        apply hun
        rw [lookup_append_none hmiss]
        rfl
      · exact hun v hmiss
    have hkne : ("updated_at" : String) ≠ "id" := by decide
    have hkmem : "updated_at" ∈ getColumns t := by
      rcases List.contains_iff_exists_mem_beq.mp hcontains with ⟨x, hx, hbeq⟩
      rw [← eq_of_beq hbeq] at hx
      exact hx
    rw [lookup_buildInsertRow t (db.getSeq t) (injectTimestamps now t v) "updated_at" hkmem]
    rw [if_neg hkne, hvals]
    rfl

/-- Concrete instance of the amended C5 theorem: a fresh food row inserted
through the src/userdb.py tools is found again, alone, by a query on its
lastRowId. -/
theorem C5_insert_query_roundtrip_witness :
    (tool_table_query 1000000
        (insResultDB 1000000 (purgeExpired 1000000 db0) "food_24h"
          [("name", Val.text "pear"), ("taken_at", Val.int 999999)])
        "food_24h" none (some [("id", WhereVal.lit (Val.int 1))]) none 100 0).2
      = Except.ok
          { rows := [buildInsertRow "food_24h" 1
              (injectTimestamps 1000000 "food_24h"
                [("name", Val.text "pear"), ("taken_at", Val.int 999999)])],
            rowCount := 1, nextOffset := none } :=
  (C5_insert_query_roundtrip 1000000 db0 "food_24h"
    [("name", Val.text "pear"), ("taken_at", Val.int 999999)]
    (by decide) (by decide) (by decide) (by decide) (by decide) (by decide)
    (by decide) (by decide)).2.2.2.1

end HealthDB
